import Mathlib

/-!
Shallow embedding of the eoreader band/index engine and the Sentinel-3
preprocessing pipeline (src/eoreader/bands/index.py,
src/eoreader/products/s3_product.py,
src/eoreader/products/optical/s3_slstr_product.py).

Arrays are modelled as lists of rationals (or of `Option ℚ` where NaN
matters, `none` standing for NaN); numpy's elementwise operations become
`List.map` / `List.zipWith` of the per-pixel formula.  Real-valued
formulas involving π, cos and sqrt are stated over `ℝ`.
-/

set_option maxRecDepth 8000

namespace EOReader

/-- Canonical band vocabulary (`OpticalBandNames`): the union of the members
referenced by the sources (the enum module itself is not part of the core). -/
inductive Band where
  | CA | BLUE | GREEN | RED | YELLOW
  | VRE_1 | VRE_2 | VRE_3
  | NIR | NARROW_NIR | NNIR | WV | FNIR
  | SWIR_CIRRUS | CIRRUS | SWIR_1 | SWIR_2
  | MIR | TIR_1 | TIR_2
  deriving DecidableEq, Repr

/-- Python `band.name` (the enum member name). -/
def Band.name : Band → String
  | .CA => "CA" | .BLUE => "BLUE" | .GREEN => "GREEN" | .RED => "RED"
  | .YELLOW => "YELLOW"
  | .VRE_1 => "VRE_1" | .VRE_2 => "VRE_2" | .VRE_3 => "VRE_3"
  | .NIR => "NIR" | .NARROW_NIR => "NARROW_NIR" | .NNIR => "NNIR"
  | .WV => "WV" | .FNIR => "FNIR"
  | .SWIR_CIRRUS => "SWIR_CIRRUS" | .CIRRUS => "CIRRUS"
  | .SWIR_1 => "SWIR_1" | .SWIR_2 => "SWIR_2"
  | .MIR => "MIR" | .TIR_1 => "TIR_1" | .TIR_2 => "TIR_2"

/-- Per-pixel `_norm_diff` (index.py, lines 70-83):
`(band_1 - band_2) / (band_1 + band_2)`. -/
def norm_diff (band_1 band_2 : ℚ) : ℚ := (band_1 - band_2) / (band_1 + band_2)

/-- Array-level `_norm_diff` (numpy broadcasts elementwise). -/
def norm_diff_arr (band_1 band_2 : List ℚ) : List ℚ := List.zipWith norm_diff band_1 band_2

/-- One percentile-deficit term of the `SI` index (index.py, lines 647-650):
`t = perc - v` followed by `np.where(t < 0, 0, t)`. -/
def si_term (perc v : ℚ) : ℚ := if perc - v < 0 then 0 else perc - v

/-- The radicand handed to `np.sqrt` by `SI` (index.py, line 651), per pixel. -/
def SI_radicand (perc_green perc_red green red : ℚ) : ℚ :=
  si_term perc_green green * si_term perc_red red

/-- The `SI` radicand over whole GREEN/RED arrays; the percentile statistic is an
external primitive, taken here as a parameter (it returns one scalar per array,
`np.nanpercentile(bands[obn.GREEN], 99)`). -/
def SI_radicand_arr (percentile : List ℚ → ℚ) (green red : List ℚ) : List ℚ :=
  List.zipWith (SI_radicand (percentile green) (percentile red)) green red

/-- Word characters of the regex class backslash-w, as matched over these
ASCII sources. -/
def isWordChar (c : Char) : Bool := c.isAlphanum || c = '_'

/-- Fuel-driven scanner body for the band regex of get_needed_bands
(index.py, line 783: literal "obn", a dot, then one or more word characters):
on a literal "obn." followed by a nonempty run of word characters, emit that
run and resume after it; otherwise move one character forward — exactly the
leftmost, non-overlapping matches re.findall produces.  The fuel argument only
makes the recursion structural; every step strictly consumes input, so any fuel
of at least the input length is exact. -/
def findBandRefsAux : Nat → List Char → List String
  | 0, _ => []
  | fuel + 1, l =>
    match l with
    | 'o' :: 'b' :: 'n' :: '.' :: t =>
      let w := t.takeWhile isWordChar
      if w.length > 0 then
        String.mk w :: findBandRefsAux fuel (t.drop w.length)
      else
        findBandRefsAux fuel ('b' :: 'n' :: '.' :: t)
    | _ :: rest => findBandRefsAux fuel rest
    | [] => []

/-- All matches of the band regex in a piece of source text, leftmost first. -/
def findBandRefs (l : List Char) : List String := findBandRefsAux l.length l

/-- Python getattr(obn, b) for an attribute name b: resolves a member of the
OpticalBandNames enum, none when the attribute does not exist (AttributeError). -/
def obn_attr : String → Option Band
  | "CA" => some .CA
  | "BLUE" => some .BLUE
  | "GREEN" => some .GREEN
  | "RED" => some .RED
  | "YELLOW" => some .YELLOW
  | "VRE_1" => some .VRE_1
  | "VRE_2" => some .VRE_2
  | "VRE_3" => some .VRE_3
  | "NIR" => some .NIR
  | "NARROW_NIR" => some .NARROW_NIR
  | "NNIR" => some .NNIR
  | "WV" => some .WV
  | "FNIR" => some .FNIR
  | "SWIR_CIRRUS" => some .SWIR_CIRRUS
  | "CIRRUS" => some .CIRRUS
  | "SWIR_1" => some .SWIR_1
  | "SWIR_2" => some .SWIR_2
  | "MIR" => some .MIR
  | "TIR_1" => some .TIR_1
  | "TIR_2" => some .TIR_2
  | _ => none

/-- get_needed_bands (index.py, lines 767-785): gathers the needed bands of an
index function by scanning its source text (inspect.getsource) for obn.<name>
references and resolving each match through getattr. -/
def get_needed_bands (code : String) : Option (List Band) :=
  (findBandRefs code.toList).mapM obn_attr

/-- Verbatim source text of the NDVI index function (index.py, lines 101-113),
as returned by inspect.getsource (decorator line included). -/
def NDVI_source : String := "@_idx_fct\ndef NDVI(bands: dict) -> xr.DataArray:\n    \"\"\"\n    `Normalized Difference Vegetation Index <https://www.indexdatabase.de/db/i-single.php?id=59>`_\n\n    Args:\n        bands (dict): Bands as \x7bband_name: xr.DataArray\x7d\n\n    Returns:\n        xr.DataArray: Computed index\n\n    \"\"\"\n    return _norm_diff(bands[obn.NIR], bands[obn.RED])\n"

/-- Verbatim source text of the BAI index function (index.py, lines 380-391). -/
def BAI_source : String := "@_idx_fct\ndef BAI(bands: dict) -> xr.DataArray:\n    \"\"\"\n    `Burn Area Index <https://www.harrisgeospatial.com/docs/BackgroundBurnIndices.html>`_\n\n    Args:\n        bands (dict): Bands as \x7bband_name: xr.DataArray\x7d\n\n    Returns:\n        xr.DataArray: Computed index\n    \"\"\"\n    return 1.0 / ((0.1 - bands[obn.RED]) ** 2 + (0.06 - bands[obn.NIR]) ** 2)\n"

/-- Verbatim source text of the GLI index function (index.py, lines 221-235). -/
def GLI_source : String := "@_idx_fct\ndef GLI(bands: dict) -> xr.DataArray:\n    \"\"\"\n    `Green leaf index <https://www.indexdatabase.de/db/i-single.php?id=375>`_\n\n    Args:\n        bands (dict): Bands as \x7bband_name: xr.DataArray\x7d\n\n    Returns:\n        xr.DataArray: Computed index\n\n    \"\"\"\n    return (2 * bands[obn.GREEN] - bands[obn.RED] - bands[obn.BLUE]) / (\n        2 * bands[obn.GREEN] + bands[obn.RED] + bands[obn.BLUE]\n    )\n"

/-- An entry of the index catalog: its name, its verbatim formula source text,
and its required canonical bands.  The `declared` field is the spec-side view
(each IndexDefinition states its required canonical bands directly as data);
the source scanner above is the code-side view to compare against it. -/
structure IndexDef where
  name : String
  source : String
  declared : List Band
  deriving DecidableEq

def NDVI_def : IndexDef := ⟨"NDVI", NDVI_source, [Band.NIR, Band.RED]⟩

def BAI_def : IndexDef := ⟨"BAI", BAI_source, [Band.NIR, Band.RED]⟩

def GLI_def : IndexDef := ⟨"GLI", GLI_source, [Band.GREEN, Band.RED, Band.BLUE]⟩

/-- Verbatim source text of the RGI index function (index.py, lines 86-98). -/
def RGI_source : String := "@_idx_fct\ndef RGI(bands: dict) -> xr.DataArray:\n    \"\"\"\n    `Relative Greenness Index <https://www.indexdatabase.de/db/i-single.php?id=326>`_\n\n    Args:\n        bands (dict): Bands as \x7bband_name: xr.DataArray\x7d\n\n    Returns:\n        xr.DataArray: Computed index\n\n    \"\"\"\n    return bands[obn.RED] / bands[obn.GREEN]\n"

def RGI_def : IndexDef := ⟨"RGI", RGI_source, [Band.RED, Band.GREEN]⟩

/-- Verbatim source text of the TCBRI index function (index.py, lines 116-138). -/
def TCBRI_source : String := "@_idx_fct\ndef TCBRI(bands: dict) -> xr.DataArray:\n    \"\"\"\n    Tasseled Cap Brightness:\n\n    - `Wikipedia <https://en.wikipedia.org/wiki/Tasseled_cap_transformation>`_\n    - `Index Database <https://www.indexdatabase.de/db/r-single.php?id=723>`_\n\n    Args:\n        bands (dict): Bands as \x7bband_name: xr.DataArray\x7d\n\n    Returns:\n        xr.DataArray: Computed index\n\n    \"\"\"\n    return (\n        0.3037 * bands[obn.BLUE]\n        + 0.2793 * bands[obn.GREEN]\n        + 0.4743 * bands[obn.RED]\n        + 0.5585 * bands[obn.NIR]\n        + 0.5082 * bands[obn.SWIR_1]\n        + 0.1863 * bands[obn.SWIR_2]\n    )\n"

def TCBRI_def : IndexDef := ⟨"TCBRI", TCBRI_source, [Band.BLUE, Band.GREEN, Band.RED, Band.NIR, Band.SWIR_1, Band.SWIR_2]⟩

/-- Verbatim source text of the TCGRE index function (index.py, lines 141-163). -/
def TCGRE_source : String := "@_idx_fct\ndef TCGRE(bands: dict) -> xr.DataArray:\n    \"\"\"\n    Tasseled Cap Greenness:\n\n    - `Wikipedia <https://en.wikipedia.org/wiki/Tasseled_cap_transformation>`_\n    - `Index Database <https://www.indexdatabase.de/db/r-single.php?id=723>`_\n\n    Args:\n        bands (dict): Bands as \x7bband_name: xr.DataArray\x7d\n\n    Returns:\n        xr.DataArray: Computed index\n\n    \"\"\"\n    return (\n        -0.2848 * bands[obn.BLUE]\n        - 0.2435 * bands[obn.GREEN]\n        - 0.5436 * bands[obn.RED]\n        + 0.7243 * bands[obn.NIR]\n        + 0.0840 * bands[obn.SWIR_1]\n        - 0.1800 * bands[obn.SWIR_2]\n    )\n"

def TCGRE_def : IndexDef := ⟨"TCGRE", TCGRE_source, [Band.BLUE, Band.GREEN, Band.RED, Band.NIR, Band.SWIR_1, Band.SWIR_2]⟩

/-- Verbatim source text of the TCWET index function (index.py, lines 166-188). -/
def TCWET_source : String := "@_idx_fct\ndef TCWET(bands: dict) -> xr.DataArray:\n    \"\"\"\n    Tasseled Cap Wetness:\n\n    - `Wikipedia <https://en.wikipedia.org/wiki/Tasseled_cap_transformation>`_\n    - `Index Database <https://www.indexdatabase.de/db/r-single.php?id=723>`_\n\n    Args:\n        bands (dict): Bands as \x7bband_name: xr.DataArray\x7d\n\n    Returns:\n        xr.DataArray: Computed index\n\n    \"\"\"\n    return (\n        0.1509 * bands[obn.BLUE]\n        + 0.1973 * bands[obn.GREEN]\n        + 0.3279 * bands[obn.RED]\n        + 0.3406 * bands[obn.NIR]\n        - 0.7112 * bands[obn.SWIR_1]\n        - 0.4572 * bands[obn.SWIR_2]\n    )\n"

def TCWET_def : IndexDef := ⟨"TCWET", TCWET_source, [Band.BLUE, Band.GREEN, Band.RED, Band.NIR, Band.SWIR_1, Band.SWIR_2]⟩

/-- Verbatim source text of the NDRE2 index function (index.py, lines 191-203). -/
def NDRE2_source : String := "@_idx_fct\ndef NDRE2(bands: dict) -> xr.DataArray:\n    \"\"\"\n    `Normalized Difference Red-Edge <https://www.indexdatabase.de/db/i-single.php?id=223>`_\n\n    Args:\n        bands (dict): Bands as \x7bband_name: xr.DataArray\x7d\n\n    Returns:\n        xr.DataArray: Computed index\n\n    \"\"\"\n    return _norm_diff(bands[obn.NIR], bands[obn.VRE_1])\n"

def NDRE2_def : IndexDef := ⟨"NDRE2", NDRE2_source, [Band.NIR, Band.VRE_1]⟩

/-- Verbatim source text of the NDRE3 index function (index.py, lines 206-218). -/
def NDRE3_source : String := "@_idx_fct\ndef NDRE3(bands: dict) -> xr.DataArray:\n    \"\"\"\n    `Normalized Difference Red-Edge <https://www.indexdatabase.de/db/i-single.php?id=223>`_\n\n    Args:\n        bands (dict): Bands as \x7bband_name: xr.DataArray\x7d\n\n    Returns:\n        xr.DataArray: Computed index\n\n    \"\"\"\n    return _norm_diff(bands[obn.NIR], bands[obn.VRE_2])\n"

def NDRE3_def : IndexDef := ⟨"NDRE3", NDRE3_source, [Band.NIR, Band.VRE_2]⟩

/-- Verbatim source text of the GNDVI index function (index.py, lines 238-250). -/
def GNDVI_source : String := "@_idx_fct\ndef GNDVI(bands: dict) -> xr.DataArray:\n    \"\"\"\n    `Green NDVI <https://www.indexdatabase.de/db/i-single.php?id=401>`_\n\n    Args:\n        bands (dict): Bands as \x7bband_name: xr.DataArray\x7d\n\n    Returns:\n        xr.DataArray: Computed index\n\n    \"\"\"\n    return _norm_diff(bands[obn.NIR], bands[obn.GREEN])\n"

def GNDVI_def : IndexDef := ⟨"GNDVI", GNDVI_source, [Band.NIR, Band.GREEN]⟩

/-- Verbatim source text of the RI index function (index.py, lines 253-265). -/
def RI_source : String := "@_idx_fct\ndef RI(bands: dict) -> xr.DataArray:\n    \"\"\"\n    `Normalized Difference RED/GREEN Redness Index <https://www.indexdatabase.de/db/i-single.php?id=74>`_\n\n    Args:\n        bands (dict): Bands as \x7bband_name: xr.DataArray\x7d\n\n    Returns:\n        xr.DataArray: Computed index\n\n    \"\"\"\n    return _norm_diff(bands[obn.VRE_1], bands[obn.GREEN])\n"

def RI_def : IndexDef := ⟨"RI", RI_source, [Band.VRE_1, Band.GREEN]⟩

/-- Verbatim source text of the NDGRI index function (index.py, lines 268-282). -/
def NDGRI_source : String := "@_idx_fct\ndef NDGRI(bands: dict) -> xr.DataArray:\n    \"\"\"\n    `Normalized Difference GREEN/RED Index <https://www.indexdatabase.de/db/i-single.php?id=390>`_\n\n    Also known as NDGR.\n\n    Args:\n        bands (dict): Bands as \x7bband_name: xr.DataArray\x7d\n\n    Returns:\n        xr.DataArray: Computed index\n\n    \"\"\"\n    return _norm_diff(bands[obn.GREEN], bands[obn.RED])\n"

def NDGRI_def : IndexDef := ⟨"NDGRI", NDGRI_source, [Band.GREEN, Band.RED]⟩

/-- Verbatim source text of the CIG index function (index.py, lines 285-297). -/
def CIG_source : String := "@_idx_fct\ndef CIG(bands: dict) -> xr.DataArray:\n    \"\"\"\n    `Chlorophyll Index Green <https://www.indexdatabase.de/db/i-single.php?id=128>`_\n\n    Args:\n        bands (dict): Bands as \x7bband_name: xr.DataArray\x7d\n\n    Returns:\n        xr.DataArray: Computed index\n\n    \"\"\"\n    return (bands[obn.NIR] / bands[obn.GREEN]) - 1\n"

def CIG_def : IndexDef := ⟨"CIG", CIG_source, [Band.NIR, Band.GREEN]⟩

/-- Verbatim source text of the NDMI index function (index.py, lines 300-312). -/
def NDMI_source : String := "@_idx_fct\ndef NDMI(bands: dict) -> xr.DataArray:\n    \"\"\"\n    `Normalized Difference Moisture Index <https://www.indexdatabase.de/db/i-single.php?id=56>`_\n\n    Args:\n        bands (dict): Bands as \x7bband_name: xr.DataArray\x7d\n\n    Returns:\n        xr.DataArray: Computed index\n\n    \"\"\"\n    return _norm_diff(bands[obn.NIR], bands[obn.SWIR_1])\n"

def NDMI_def : IndexDef := ⟨"NDMI", NDMI_source, [Band.NIR, Band.SWIR_1]⟩

/-- Verbatim source text of the DSWI index function (index.py, lines 315-327). -/
def DSWI_source : String := "@_idx_fct\ndef DSWI(bands: dict) -> xr.DataArray:\n    \"\"\"\n    `Disease water stress index <https://www.indexdatabase.de/db/i-single.php?id=106>`_\n\n    Args:\n        bands (dict): Bands as \x7bband_name: xr.DataArray\x7d\n\n    Returns:\n        xr.DataArray: Computed index\n\n    \"\"\"\n    return (bands[obn.NIR] + bands[obn.GREEN]) / (bands[obn.SWIR_1] + bands[obn.RED])\n"

def DSWI_def : IndexDef := ⟨"DSWI", DSWI_source, [Band.NIR, Band.GREEN, Band.SWIR_1, Band.RED]⟩

/-- Verbatim source text of the SRSWIR index function (index.py, lines 330-342). -/
def SRSWIR_source : String := "@_idx_fct\ndef SRSWIR(bands: dict) -> xr.DataArray:\n    \"\"\"\n    `Simple Ratio SWIR_1/SWIR_2 Clay Minerals <https://www.indexdatabase.de/db/i-single.php?id=204>`_\n\n    Args:\n        bands (dict): Bands as \x7bband_name: xr.DataArray\x7d\n\n    Returns:\n        xr.DataArray: Computed index\n\n    \"\"\"\n    return bands[obn.SWIR_1] / bands[obn.SWIR_2]\n"

def SRSWIR_def : IndexDef := ⟨"SRSWIR", SRSWIR_source, [Band.SWIR_1, Band.SWIR_2]⟩

/-- Verbatim source text of the RDI index function (index.py, lines 345-357). -/
def RDI_source : String := "@_idx_fct\ndef RDI(bands: dict) -> xr.DataArray:\n    \"\"\"\n    `Ratio Drought Index <https://www.indexdatabase.de/db/i-single.php?id=71>`_\n\n    Args:\n        bands (dict): Bands as \x7bband_name: xr.DataArray\x7d\n\n    Returns:\n        xr.DataArray: Computed index\n\n    \"\"\"\n    return bands[obn.SWIR_2] / bands[obn.NARROW_NIR]\n"

def RDI_def : IndexDef := ⟨"RDI", RDI_source, [Band.SWIR_2, Band.NARROW_NIR]⟩

/-- Verbatim source text of the NDWI index function (index.py, lines 360-377). -/
def NDWI_source : String := "@_idx_fct\ndef NDWI(bands: dict) -> xr.DataArray:\n    \"\"\"\n    `Normalized Difference Water Index <https://pro.arcgis.com/fr/pro-app/2.7/arcpy/image-analyst/ndwi.htm>`_\n    (GREEN Version)\n\n    :code:`NDWI = (GREEN - NIR) / (GREEN + NIR)`\n\n    For the SWIR version, see the NDMI.\n\n    Args:\n        bands (dict): Bands as \x7bband_name: xr.DataArray\x7d\n\n    Returns:\n        xr.DataArray: Computed index\n\n    \"\"\"\n    return _norm_diff(bands[obn.GREEN], bands[obn.NIR])\n"

def NDWI_def : IndexDef := ⟨"NDWI", NDWI_source, [Band.GREEN, Band.NIR]⟩

/-- Verbatim source text of the BAIS2 index function (index.py, lines 394-413). -/
def BAIS2_source : String := "@_idx_fct\ndef BAIS2(bands: dict) -> xr.DataArray:\n    \"\"\"\n    `Burn Area Index for Sentinel-2\n    <https://www.researchgate.net/publication/323964124_BAIS2_Burned_Area_Index_for_Sentinel-2>`_\n\n    Args:\n        bands (dict): Bands as \x7bband_name: xr.DataArray\x7d\n\n    Returns:\n        xr.DataArray: Computed index\n    \"\"\"\n    # (1-((B06*B07*B8A)/B04)**0.5)*((B12-B8A)/((B12+B8A)**0.5)+1);\n    a = (\n        (bands[obn.VRE_2] * bands[obn.VRE_3] * bands[obn.NARROW_NIR]) / bands[obn.RED]\n    ) ** 0.5\n    b = (bands[obn.SWIR_2] - bands[obn.NARROW_NIR]) / (\n        (bands[obn.SWIR_2] + bands[obn.NARROW_NIR]) ** 0.5\n    )\n    return (1 - a) * (1 + b)\n"

def BAIS2_def : IndexDef := ⟨"BAIS2", BAIS2_source, [Band.VRE_2, Band.VRE_3, Band.NARROW_NIR, Band.RED, Band.SWIR_2]⟩

/-- Verbatim source text of the NBR index function (index.py, lines 416-428). -/
def NBR_source : String := "@_idx_fct\ndef NBR(bands: dict) -> xr.DataArray:\n    \"\"\"\n    `Normalized Burn Ratio <https://www.indexdatabase.de/db/i-single.php?id=53>`_\n\n    Args:\n        bands (dict): Bands as \x7bband_name: xr.DataArray\x7d\n\n    Returns:\n        xr.DataArray: Computed index\n\n    \"\"\"\n    return _norm_diff(bands[obn.NARROW_NIR], bands[obn.SWIR_2])\n"

def NBR_def : IndexDef := ⟨"NBR", NBR_source, [Band.NARROW_NIR, Band.SWIR_2]⟩

/-- Verbatim source text of the MNDWI index function (index.py, lines 431-443). -/
def MNDWI_source : String := "@_idx_fct\ndef MNDWI(bands: dict) -> xr.DataArray:\n    \"\"\"\n    `Modified Normalised Difference Water Index <https://wiki.orfeo-toolbox.org/index.php/MNDWI>`_\n\n    Args:\n        bands (dict): Bands as \x7bband_name: xr.DataArray\x7d\n\n    Returns:\n        xr.DataArray: Computed index\n\n    \"\"\"\n    return _norm_diff(bands[obn.GREEN], bands[obn.SWIR_1])\n"

def MNDWI_def : IndexDef := ⟨"MNDWI", MNDWI_source, [Band.GREEN, Band.SWIR_1]⟩

/-- Verbatim source text of the AWEInsh index function (index.py, lines 446-460). -/
def AWEInsh_source : String := "@_idx_fct\ndef AWEInsh(bands: dict) -> xr.DataArray:\n    \"\"\"\n    Automated Water Extraction Index not shadow: Feyisa et al. (2014)\n\n    Args:\n        bands (dict): Bands as \x7bband_name: xr.DataArray\x7d\n\n    Returns:\n        xr.DataArray: Computed index\n\n    \"\"\"\n    return 4 * (bands[obn.GREEN] - bands[obn.SWIR_1]) - (\n        0.25 * bands[obn.NIR] + 2.75 * bands[obn.SWIR_2]\n    )\n"

def AWEInsh_def : IndexDef := ⟨"AWEInsh", AWEInsh_source, [Band.GREEN, Band.SWIR_1, Band.NIR, Band.SWIR_2]⟩

/-- Verbatim source text of the AWEIsh index function (index.py, lines 463-480). -/
def AWEIsh_source : String := "@_idx_fct\ndef AWEIsh(bands: dict) -> xr.DataArray:\n    \"\"\"\n    Automated Water Extraction Index shadow: Feyisa et al. (2014)\n\n    Args:\n        bands (dict): Bands as \x7bband_name: xr.DataArray\x7d\n\n    Returns:\n        xr.DataArray: Computed index\n\n    \"\"\"\n    return (\n        bands[obn.BLUE]\n        + 2.5 * bands[obn.GREEN]\n        - 1.5 * (bands[obn.NIR] + bands[obn.SWIR_1])\n        - 0.25 * bands[obn.SWIR_2]\n    )\n"

def AWEIsh_def : IndexDef := ⟨"AWEIsh", AWEIsh_source, [Band.BLUE, Band.GREEN, Band.NIR, Band.SWIR_1, Band.SWIR_2]⟩

/-- Verbatim source text of the WI index function (index.py, lines 483-501). -/
def WI_source : String := "@_idx_fct\ndef WI(bands: dict) -> xr.DataArray:\n    \"\"\"\n    Water Index (2015): Fisher et al. (2016)\n\n    Args:\n        bands (dict): Bands as \x7bband_name: xr.DataArray\x7d\n\n    Returns:\n        xr.DataArray: Computed index\n    \"\"\"\n    return (\n        1.7204\n        + 171 * bands[obn.GREEN]\n        + 3 * bands[obn.RED]\n        - 70 * bands[obn.NIR]\n        - 45 * bands[obn.SWIR_1]\n        - 71 * bands[obn.SWIR_2]\n    )\n"

def WI_def : IndexDef := ⟨"WI", WI_source, [Band.GREEN, Band.RED, Band.NIR, Band.SWIR_1, Band.SWIR_2]⟩

/-- Verbatim source text of the AFRI_1_6 index function (index.py, lines 504-515). -/
def AFRI_1_6_source : String := "@_idx_fct\ndef AFRI_1_6(bands: dict) -> xr.DataArray:\n    \"\"\"\n    `Aerosol free vegetation index 1600 <https://www.indexdatabase.de/db/i-single.php?id=393>`_\n\n    Args:\n        bands (dict): Bands as \x7bband_name: xr.DataArray\x7d\n\n    Returns:\n        xr.DataArray: Computed index\n    \"\"\"\n    return _norm_diff(bands[obn.NIR], 0.66 * bands[obn.SWIR_1])\n"

def AFRI_1_6_def : IndexDef := ⟨"AFRI_1_6", AFRI_1_6_source, [Band.NIR, Band.SWIR_1]⟩

/-- Verbatim source text of the AFRI_2_1 index function (index.py, lines 518-533). -/
def AFRI_2_1_source : String := "@_idx_fct\ndef AFRI_2_1(bands: dict) -> xr.DataArray:\n    \"\"\"\n    `Aerosol free vegetation index 2100 <https://www.indexdatabase.de/db/i-single.php?id=395>`_\n\n    .. WARNING::\n        There is an error in the formula, go see the papers to get the right one (0.56 instead of 0.5):\n        https://core.ac.uk/download/pdf/130673386.pdf\n\n    Args:\n        bands (dict): Bands as \x7bband_name: xr.DataArray\x7d\n\n    Returns:\n        xr.DataArray: Computed index\n    \"\"\"\n    return _norm_diff(bands[obn.NIR], 0.5 * bands[obn.SWIR_2])\n"

def AFRI_2_1_def : IndexDef := ⟨"AFRI_2_1", AFRI_2_1_source, [Band.NIR, Band.SWIR_2]⟩

/-- Verbatim source text of the BSI index function (index.py, lines 536-553). -/
def BSI_source : String := "@_idx_fct\ndef BSI(bands: dict) -> xr.DataArray:\n    \"\"\"\n    `Barren Soil Index <http://tropecol.com/pdf/open/PDF_43_1/43104.pdf>`_\n    Rikimaru et al., 2002. Tropical forest cover density mapping.\n\n\n    :code:`BSI = ((RED+SWIR) \u2013 (NIR+BLUE)) / ((RED+SWIR) + (NIR+BLUE))`\n\n    Args:\n        bands (dict): Bands as \x7bband_name: xr.DataArray\x7d\n\n    Returns:\n        xr.DataArray: Computed index\n    \"\"\"\n    return _norm_diff(\n        bands[obn.RED] + bands[obn.SWIR_1], bands[obn.NIR] + bands[obn.BLUE]\n    )\n"

def BSI_def : IndexDef := ⟨"BSI", BSI_source, [Band.RED, Band.SWIR_1, Band.NIR, Band.BLUE]⟩

/-- Verbatim source text of the WV_WI index function (index.py, lines 560-575). -/
def WV_WI_source : String := "@_idx_fct\ndef WV_WI(bands: dict) -> xr.DataArray:\n    \"\"\"\n    `WorldView-Water (WV-WI) <https://resources.maxar.com/optical-imagery/multispectral-reference-guide>`_\n\n    Useful for detecting standing, flowing water, or shadow in VNIR imagery\n\n    :code:`WV_WI = ((B8-B1)/(B8+B1))`\n\n    Args:\n        bands (dict): Bands as \x7bband_name: xr.DataArray\x7d\n\n    Returns:\n        xr.DataArray: Computed index\n    \"\"\"\n    return _norm_diff(bands[obn.WV], bands[obn.CA])\n"

def WV_WI_def : IndexDef := ⟨"WV_WI", WV_WI_source, [Band.WV, Band.CA]⟩

/-- Verbatim source text of the WV_VI index function (index.py, lines 578-593). -/
def WV_VI_source : String := "@_idx_fct\ndef WV_VI(bands: dict) -> xr.DataArray:\n    \"\"\"\n    `WorldView-Vegetation (WV-VI) <https://resources.maxar.com/optical-imagery/multispectral-reference-guide>`_\n\n    Useful for detecting vegetation and assessing vegetation health\n\n    :code:`WV_VI = ((B8-B5)/(B8+B5))`\n\n    Args:\n        bands (dict): Bands as \x7bband_name: xr.DataArray\x7d\n\n    Returns:\n        xr.DataArray: Computed index\n    \"\"\"\n    return _norm_diff(bands[obn.WV], bands[obn.RED])\n"

def WV_VI_def : IndexDef := ⟨"WV_VI", WV_VI_source, [Band.WV, Band.RED]⟩

/-- Verbatim source text of the WV_SI index function (index.py, lines 596-611). -/
def WV_SI_source : String := "@_idx_fct\ndef WV_SI(bands: dict) -> xr.DataArray:\n    \"\"\"\n    `WorldView-Soil (WV-SI) <https://resources.maxar.com/optical-imagery/multispectral-reference-guide>`_\n\n    Useful for detecting and differentiating exposed soil\n\n    :code:`WV_SI = ((B4-B3)/(B4+B3))`\n\n    Args:\n        bands (dict): Bands as \x7bband_name: xr.DataArray\x7d\n\n    Returns:\n        xr.DataArray: Computed index\n    \"\"\"\n    return _norm_diff(bands[obn.YELLOW], bands[obn.GREEN])\n"

def WV_SI_def : IndexDef := ⟨"WV_SI", WV_SI_source, [Band.YELLOW, Band.GREEN]⟩

/-- Verbatim source text of the WV_BI index function (index.py, lines 614-629). -/
def WV_BI_source : String := "@_idx_fct\ndef WV_BI(bands: dict) -> xr.DataArray:\n    \"\"\"\n    `WorldView-Built-up (WV-BI) <https://resources.maxar.com/optical-imagery/multispectral-reference-guide>`_\n\n    Useful for detecting impervious surfaces such as buildings and roads\n\n    :code:`WV_BI = ((B6-B1)/(B6+B1))`\n\n    Args:\n        bands (dict): Bands as \x7bband_name: xr.DataArray\x7d\n\n    Returns:\n        xr.DataArray: Computed index\n    \"\"\"\n    return _norm_diff(bands[obn.VRE_1], bands[obn.CA])\n"

def WV_BI_def : IndexDef := ⟨"WV_BI", WV_BI_source, [Band.VRE_1, Band.CA]⟩

/-- Verbatim source text of the SI index function (index.py, lines 632-651). -/
def SI_source : String := "@_idx_fct\ndef SI(bands: dict) -> xr.DataArray:\n    \"\"\"\n    Shadow Index\n\n    Replacing maxima by percentile_98 in order to discard potential outliers\n\n    :code:`SI = sqrt((perc_98(GREEN) - GREEN)*(perc_98(RED) - RED))`\n\n    Args:\n        bands (dict): Bands as \x7bband_name: xr.DataArray\x7d\n\n    Returns:\n        xr.DataArray: Computed index\n    \"\"\"\n    green = np.nanpercentile(bands[obn.GREEN], 99) - bands[obn.GREEN]\n    green = np.where(green < 0, 0, green)\n    red = np.nanpercentile(bands[obn.RED], 99) - bands[obn.RED]\n    red = np.where(red < 0, 0, red)\n    return np.sqrt(green * red)\n"

def SI_def : IndexDef := ⟨"SI", SI_source, [Band.GREEN, Band.RED]⟩

/-- Verbatim source text of the GVMI index function (index.py, lines 654-667). -/
def GVMI_source : String := "@_idx_fct\ndef GVMI(bands: dict) -> xr.DataArray:\n    \"\"\"\n    `Global Vegetation Moisture Index <https://www.indexdatabase.de/db/i-single.php?id=372>`_\n\n    :code:`GVMI = norm_diff(NIR+0.1), SWIR_2 + 0.02))`\n\n    Args:\n        bands (dict): Bands as \x7bband_name: xr.DataArray\x7d\n\n    Returns:\n        xr.DataArray: Computed index\n    \"\"\"\n    return _norm_diff(bands[obn.NIR] + 0.1, bands[obn.SWIR_2] + 0.02)\n"

def GVMI_def : IndexDef := ⟨"GVMI", GVMI_source, [Band.NIR, Band.SWIR_2]⟩

/-- Verbatim source text of the SBI index function (index.py, lines 670-687). -/
def SBI_source : String := "@_idx_fct\ndef SBI(bands: dict) -> xr.DataArray:\n    \"\"\"\n    `Soil Brightness Index <https://hal.archives-ouvertes.fr/hal-03207299/document>`_ (p.4)\n\n    The role of the brightness index is to identify the reflectance of soil\n    and to highlight the vegetal cover of bare areas.\n    *Bannari et al. 1996; Soufiane Maimouni and Bannari 2011*\n\n    :code:`SBI = sqrt(RED**2 + NIR**2)`\n\n    Args:\n        bands (dict): Bands as \x7bband_name: xr.DataArray\x7d\n\n    Returns:\n        xr.DataArray: Computed index\n    \"\"\"\n    return np.sqrt(bands[obn.RED] ** 2 + bands[obn.NIR] ** 2)\n"

def SBI_def : IndexDef := ⟨"SBI", SBI_source, [Band.RED, Band.NIR]⟩

/-- Verbatim source text of the SCI index function (index.py, lines 690-706). -/
def SCI_source : String := "@_idx_fct\ndef SCI(bands: dict) -> xr.DataArray:\n    \"\"\"\n    `Soil Cuirass Index <https://hal.archives-ouvertes.fr/hal-03207299/document>`_ (p.4)\n\n    It aims is to dissociate vegetated coverings from mineralized surfaces\n    *Okaingni et al. 2010; Stephane et al. 2016*\n\n    :code:`SCI = 3*GREEN - RED - 100`\n\n    Args:\n        bands (dict): Bands as \x7bband_name: xr.DataArray\x7d\n\n    Returns:\n        xr.DataArray: Computed index\n    \"\"\"\n    return 3 * bands[obn.GREEN] - bands[obn.RED] - 100\n"

def SCI_def : IndexDef := ⟨"SCI", SCI_source, [Band.GREEN, Band.RED]⟩

/-- Verbatim source text of the PANI index function (index.py, lines 709-722). -/
def PANI_source : String := "@_idx_fct\ndef PANI(bands: dict) -> xr.DataArray:\n    \"\"\"\n    Panchromatic mocking index\n\n    :code:`PAN = sqrt(RED**2 + GREEN**2 + BLUE**2)`\n\n    Args:\n        bands (dict): Bands as \x7bband_name: xr.DataArray\x7d\n\n    Returns:\n        xr.DataArray: Computed index\n    \"\"\"\n    return np.sqrt(bands[obn.RED] ** 2 + bands[obn.GREEN] ** 2 + bands[obn.BLUE] ** 2)\n"

def PANI_def : IndexDef := ⟨"PANI", PANI_source, [Band.RED, Band.GREEN, Band.BLUE]⟩

/-- The registered index catalog: every uppercase-named index function of
index.py, in source order — the 36 functions that get_all_indices and
get_all_needed_bands gather from the module. -/
def index_registry : List IndexDef :=
  [RGI_def,
   NDVI_def,
   TCBRI_def,
   TCGRE_def,
   TCWET_def,
   NDRE2_def,
   NDRE3_def,
   GLI_def,
   GNDVI_def,
   RI_def,
   NDGRI_def,
   CIG_def,
   NDMI_def,
   DSWI_def,
   SRSWIR_def,
   RDI_def,
   NDWI_def,
   BAI_def,
   BAIS2_def,
   NBR_def,
   MNDWI_def,
   AWEInsh_def,
   AWEIsh_def,
   WI_def,
   AFRI_1_6_def,
   AFRI_2_1_def,
   BSI_def,
   WV_WI_def,
   WV_VI_def,
   WV_SI_def,
   WV_BI_def,
   SI_def,
   GVMI_def,
   SBI_def,
   SCI_def,
   PANI_def]

/-- np.nanmean over a one-band raster whose undefined (NaN) cells are `none`:
the mean of the defined values, `none` (NaN itself) when every cell is
undefined. -/
def nanmean (raster : List (Option ℚ)) : Option ℚ :=
  let vals := raster.filterMap id
  if vals.length = 0 then none else some (vals.sum / (vals.length : ℚ))

/-- SLSTR_SOLAR_FLUXES_DEFAULT (s3_slstr_product.py, lines 60-68): fixed
per-band default solar fluxes; `none` on a band outside the table models the
dictionary KeyError. -/
def SLSTR_SOLAR_FLUXES_DEFAULT : Band → Option ℚ
  | .GREEN => some 1837.39
  | .RED => some 1525.94
  | .NIR => some 956.17
  | .NARROW_NIR => some 956.17
  | .SWIR_CIRRUS => some 365.90
  | .SWIR_1 => some 248.33
  | .SWIR_2 => some 78.33
  | _ => none

/-- Function _compute_e0 (s3_slstr_product.py, lines 633-652): `e0` is the
nanmean of the per-band solar-irradiance raster, replaced by the per-band
default constant when that mean is NaN (every cell undefined). -/
def compute_e0 (raster : List (Option ℚ)) (band : Band) : Option ℚ :=
  match nanmean raster with
  | some m => some m
  | none => SLSTR_SOLAR_FLUXES_DEFAULT band

/-- Function _rad_2_refl (s3_slstr_product.py, lines 507-554): multiplies the
band array elementwise by the coefficient raster `np.pi / e0 / np.cos(sza)`,
where `sza` is the sun-zenith angle resampled to the image grid (radians). -/
noncomputable def rad_2_refl (band_arr : List ℝ) (e0 : ℝ) (sza : List ℝ) : List ℝ :=
  List.zipWith (fun r z => r * (Real.pi / e0 / Real.cos z)) band_arr sza

/-- State of the per-product GCP cache: the `_gcps` dictionary (one entry per
grid suffix, s3_slstr_product.py, line 196) plus an instrumentation counter of
how many times the expensive control-point construction (utils.create_gcps)
has run. -/
structure GcpState (γ : Type) where
  gcps : List (String × List γ)
  create_count : Nat
  deriving DecidableEq

/-- Dictionary lookup in the `_gcps` mapping. -/
def gcps_lookup {γ : Type} (d : List (String × List γ)) (suffix : String) :
    Option (List γ) :=
  (d.find? (fun p => p.1 == suffix)).map Prod.snd

/-- Function _create_gcps (s3_slstr_product.py, lines 394-410): builds the GCP
sequence for a grid suffix unless the cache already has an entry for it (the
guard `suffix not in self._gcps and not self._gcps[suffix]` short-circuits as
soon as the key exists).  `build` stands for reading the three geodetic
rasters of the suffix and calling utils.create_gcps on them. -/
def create_gcps {γ : Type} (build : String → List γ) (st : GcpState γ)
    (suffix : String) : GcpState γ :=
  match gcps_lookup st.gcps suffix with
  | some _ => st
  | none => ⟨(suffix, build suffix) :: st.gcps, st.create_count + 1⟩

/-- Function _geocode (s3_slstr_product.py, lines 412-442): ensures the GCPs of
the grid suffix exist, then reprojects the band array with them (`reproject`
stands for the external GCP_TPS warp, a deterministic function of the band
array and the control points). -/
def geocode {β γ δ : Type} (build : String → List γ) (reproject : β → List γ → δ)
    (st : GcpState γ) (band_arr : β) (suffix : String) : δ × GcpState γ :=
  let st1 := create_gcps build st suffix
  (reproject band_arr ((gcps_lookup st1.gcps suffix).getD []), st1)

/-- Bit `bit_id` of a flag word, as one lane of rasters.read_bit_array (the
external bit-decode primitive): 1 when the bit is set, else 0. -/
def read_bit (qual : ℕ) (bit_id : ℕ) : ℕ := if Nat.testBit qual bit_id then 1 else 0

/-- Saturation bit per OLCI band, band_bit_id (s3_product.py, lines 425-437). -/
def band_bit_id : Band → Option ℕ
  | .CA => some 18
  | .BLUE => some 17
  | .GREEN => some 14
  | .RED => some 12
  | .VRE_1 => some 10
  | .VRE_2 => some 9
  | .VRE_3 => some 5
  | .NIR => some 4
  | .NNIR => some 4
  | .WV => some 1
  | .FNIR => some 0
  | _ => none

/-- The `invalid` OLCI quality bit (s3_product.py, line 438). -/
def invalid_id : ℕ := 24

/-- Per-pixel OLCI no-data condition (s3_product.py, line 453):
`np.where(band_arr == self.snap_no_data, 1, 0)`. -/
def olci_no_data (snap_no_data v : ℚ) : ℕ := if v = snap_no_data then 1 else 0

/-- Per-pixel combined OLCI invalid mask, manage_invalid_pixels_olci
(s3_product.py, lines 450-456): `no_data | invalid | sat`. -/
def olci_invalid_mask (snap_no_data : ℚ) (sat_id : ℕ) (v : ℚ) (qual : ℕ) : ℕ :=
  olci_no_data snap_no_data v ||| read_bit qual invalid_id ||| read_bit qual sat_id

/-- The OLCI combined invalid mask over whole arrays. -/
def olci_mask_arr (snap_no_data : ℚ) (sat_id : ℕ) (band_arr : List ℚ)
    (qual_arr : List ℕ) : List ℕ :=
  List.zipWith (olci_invalid_mask snap_no_data sat_id) band_arr qual_arr

/-- Per-pixel SLSTR exception condition (s3_slstr_product.py, line 687):
`np.where(qual_arr > 2, 1, 0)` — everything except ISP causes an exception. -/
def slstr_exception (qual : ℤ) : ℕ := if qual > 2 then 1 else 0

/-- Per-pixel SLSTR no-data condition (s3_slstr_product.py, line 690):
`np.where(np.isnan(band_arr), 1, 0)`; band cells are `Option ℚ`, NaN = none. -/
def slstr_no_data (v : Option ℚ) : ℕ := if v = none then 1 else 0

/-- Per-pixel combined SLSTR invalid mask, _manage_invalid_pixels
(s3_slstr_product.py, line 693): `no_data | exception`. -/
def slstr_invalid_mask (v : Option ℚ) (qual : ℤ) : ℕ :=
  slstr_no_data v ||| slstr_exception qual

/-- The SLSTR combined invalid mask over whole arrays. -/
def slstr_mask_arr (band_arr : List (Option ℚ)) (qual_arr : List ℤ) : List ℕ :=
  List.zipWith slstr_invalid_mask band_arr qual_arr

/-- np.nan_to_num for one cell: an undefined (NaN) cell becomes 0.0. -/
def nan_to_num : Option ℚ → ℚ
  | none => 0
  | some v => v

/-- The zero-to-nodata restoration step of _tie_to_img (s3_slstr_product.py,
line 482), per cell: `img_arr[img_arr == 0] = np.nan`. -/
def zero_to_nan (v : ℚ) : Option ℚ := if v = 0 then none else some v

/-- Function _tie_to_img (s3_slstr_product.py, lines 444-484), with the
bivariate-spline fit-and-evaluate abstracted as `spline_ev` (scipy's
RectBivariateSpline fitted to the prepared tie grid and evaluated at the
target cartesian coordinates, an external primitive): the tie array is
NaN-filled with zeros, interpolated, and every exactly-zero output cell is
remapped to NaN. -/
def tie_to_img (spline_ev : List ℚ → List ℚ) (tie_arr : List (Option ℚ)) :
    List (Option ℚ) :=
  (spline_ev (tie_arr.map nan_to_num)).map zero_to_nan

/-- SLSTR_RAD_BANDS (s3_slstr_product.py, line 83): the solar channels. -/
def SLSTR_RAD_BANDS : List String := ["S1", "S2", "S3", "S4", "S5", "S6"]

/-- SlstrRadAdjustTuple (s3_slstr_product.py, lines 87-92): one multiplicative
coefficient per (solar channel, view) field, every field defaulting to 1.0. -/
structure SlstrRadAdjustTuple where
  S1_n : ℚ := 1
  S2_n : ℚ := 1
  S3_n : ℚ := 1
  S4_n : ℚ := 1
  S5_n : ℚ := 1
  S6_n : ℚ := 1
  S1_o : ℚ := 1
  S2_o : ℚ := 1
  S3_o : ℚ := 1
  S4_o : ℚ := 1
  S5_o : ℚ := 1
  S6_o : ℚ := 1
  deriving DecidableEq

/-- Python getattr(rad_adjust.value, field) for a field name built as
band_name + "_" + view: the twelve namedtuple fields; `none` (AttributeError)
on any other name. -/
def SlstrRadAdjustTuple.coeff (t : SlstrRadAdjustTuple) : String → Option ℚ
  | "S1_n" => some t.S1_n
  | "S2_n" => some t.S2_n
  | "S3_n" => some t.S3_n
  | "S4_n" => some t.S4_n
  | "S5_n" => some t.S5_n
  | "S6_n" => some t.S6_n
  | "S1_o" => some t.S1_o
  | "S2_o" => some t.S2_o
  | "S3_o" => some t.S3_o
  | "S4_o" => some t.S4_o
  | "S5_o" => some t.S5_o
  | "S6_o" => some t.S6_o
  | _ => none

/-- SlstrRadAdjust.S3_PN_SLSTR_L1_08 (s3_slstr_product.py, lines 136-149), the
default preset; fields not listed keep the namedtuple default 1.0. -/
def S3_PN_SLSTR_L1_08 : SlstrRadAdjustTuple :=
  { S1_n := 0.97
    S2_n := 0.98
    S3_n := 0.98
    S5_n := 1.11
    S6_n := 1.13
    S1_o := 0.94
    S2_o := 0.95
    S3_o := 0.95
    S5_o := 1.04
    S6_o := 1.07 }

/-- The SLSTR band mapping (s3_slstr_product.py, lines 305-321); the
brightness-temperature channels S7-S9/F1/F2 are not mapped (commented out in
the source), so e.g. TIR_2 (channel S9) resolves to nothing. -/
def slstr_band_names : Band → Option String
  | .GREEN => some "S1"
  | .RED => some "S2"
  | .NIR => some "S3"
  | .NARROW_NIR => some "S4"
  | .SWIR_CIRRUS => some "S4"
  | .SWIR_1 => some "S5"
  | .SWIR_2 => some "S6"
  | _ => none

/-- Function _radiance_adjustment (s3_slstr_product.py, lines 556-604):
multiplies the band array by the coefficient of the profile field
band_name + "_" + suffix[-1] when the band maps to a solar channel, by 1.0 for
any other mapped channel (brightness temperature), and returns the array
untouched when the band is unmapped (the `None`/KeyError paths for
non-channels).  An overall `none` would be an AttributeError escaping getattr;
it cannot occur for a solar channel under a valid grid suffix. -/
def radiance_adjustment (band_names : Band → Option String) (suffix : String)
    (rad_adjust : SlstrRadAdjustTuple) (band_arr : List ℚ) (band : Band) :
    Option (List ℚ) :=
  match band_names band with
  | some band_name =>
    if band_name ∈ SLSTR_RAD_BANDS then
      (rad_adjust.coeff (band_name ++ "_" ++ String.mk [suffix.back])).map
        (fun rad_coeff => band_arr.map (fun x => x * rad_coeff))
    else
      some (band_arr.map (fun x => x * 1))
  | none => some band_arr

/-- S3DataTypes (s3_product.py, lines 42-46). -/
inductive S3DataTypes where
  | EFR
  | RBT
  deriving DecidableEq, Repr

/-- Python data_type.name (the enum member name). -/
def S3DataTypes.name : S3DataTypes → String
  | .EFR => "EFR"
  | .RBT => "RBT"

/-- BT_BANDS (s3_product.py, line 25): brightness-temperature bands. -/
def BT_BANDS : List Band := [.MIR, .TIR_1, .TIR_2]

/-- The error taxonomy raised by the band-name resolvers. -/
inductive EoError where
  | invalidProduct (msg : String)
  | invalidType (msg : String)
  deriving DecidableEq, Repr

/-- Function get_snap_band_name (s3_product.py, lines 140-165): resolves the
SNAP band name of a canonical band; a band absent from the mapping (band
number None) raises InvalidProductError naming the band and the data type. -/
def get_snap_band_name (data_type : S3DataTypes) (band_names : Band → Option String)
    (band : Band) : Except EoError String :=
  match band_names band with
  | none => .error (.invalidProduct
      ("Non existing band (" ++ band.name ++ ") for S3-" ++ data_type.name ++ " products"))
  | some band_nb =>
    match data_type with
    | .EFR => .ok ("Oa" ++ band_nb ++ "_reflectance")
    | .RBT =>
      if band ∈ BT_BANDS then .ok ("S" ++ band_nb ++ "_BT_in")
      else .ok ("S" ++ band_nb ++ "_reflectance_an")

/-- Function get_slstr_quality_flags_name (s3_product.py, lines 167-187): same
missing-band error first, then the SLSTR exception-flag name (InvalidTypeError
outside SLSTR). -/
def get_slstr_quality_flags_name (data_type : S3DataTypes)
    (band_names : Band → Option String) (band : Band) : Except EoError String :=
  match band_names band with
  | none => .error (.invalidProduct
      ("Non existing band (" ++ band.name ++ ") for S3-" ++ data_type.name ++ " products"))
  | some band_nb =>
    match data_type with
    | .RBT => .ok ("S" ++ band_nb ++ "_exception_" ++
        (if band ∈ BT_BANDS then "i" else "a") ++ "n")
    | .EFR => .error (.invalidType
        ("This function only works for Sentinel-3 SLSTR data: " ++ data_type.name))

/-- The OLCI band mapping (s3_product.py, lines 82-94). -/
def olci_band_names : Band → Option String
  | .CA => some "02"
  | .BLUE => some "03"
  | .GREEN => some "06"
  | .RED => some "08"
  | .VRE_1 => some "11"
  | .VRE_2 => some "12"
  | .VRE_3 => some "16"
  | .NIR => some "17"
  | .NNIR => some "17"
  | .WV => some "20"
  | .FNIR => some "21"
  | _ => none

/-- Pipeline stages observable in _preprocess (s3_slstr_product.py, lines
323-392) and _manage_invalid_pixels (lines 656-696): reading the raw netCDF
band, _radiance_adjustment, _rad_2_refl, _geocode, the disk write, and the
final invalid-pixel mask application (_set_nodata_mask). -/
inductive Stage where
  | readRaw
  | adjust
  | rad2refl
  | geocodeStage
  | writeDisk
  | maskStage
  deriving DecidableEq, Repr, Fintype

/-- Execution trace of one _preprocess call: nothing when the preprocessed
band is already cached on disk; otherwise read, adjust, optionally convert to
reflectance, geocode, write — in exactly that textual order. -/
def preprocess_trace (cached : Bool) (to_reflectance : Bool) : List Stage :=
  if cached then []
  else [.readRaw, .adjust] ++ (if to_reflectance then [.rad2refl] else [])
    ++ [.geocodeStage, .writeDisk]

/-- Execution trace of loading one band and cleaning its invalid pixels:
_preprocess of the band itself, then _manage_invalid_pixels, which reuses
_preprocess on the exception flags (never converted to reflectance) and ends
by applying the combined mask to the geocoded band. -/
def load_clean_trace (cached cached_qual : Bool) (to_reflectance : Bool) :
    List Stage :=
  preprocess_trace cached to_reflectance ++ preprocess_trace cached_qual false
    ++ [.maskStage]

/-- Stage `s1` precedes stage `s2` everywhere in trace `t`. -/
def StageBefore (t : List Stage) (s1 s2 : Stage) : Prop :=
  ∀ i j : Fin t.length, t.get i = s1 → t.get j = s2 → (i : ℕ) < (j : ℕ)

instance (t : List Stage) (s1 s2 : Stage) : Decidable (StageBefore t s1 s2) := by
  unfold StageBefore; infer_instance

end EOReader

namespace EOReader

theorem zipWith_get {α β γ : Type} (f : α → β → γ) :
    ∀ (a : List α) (b : List β) (i : ℕ) (ha : i < a.length) (hb : i < b.length),
      ∃ h : i < (List.zipWith f a b).length,
        (List.zipWith f a b).get ⟨i, h⟩ = f (a.get ⟨i, ha⟩) (b.get ⟨i, hb⟩) := by
  intro a
  induction a with
  | nil => intro b i ha; exact absurd ha (by simp)
  | cons x xs ih =>
    intro b i ha hb
    cases b with
    | nil => exact absurd hb (by simp)
    | cons y ys =>
      cases i with
      | zero => exact ⟨by simp, rfl⟩
      | succ n =>
        obtain ⟨h, hget⟩ := ih ys n (by simpa using ha) (by simpa using hb)
        exact ⟨by simpa using Nat.succ_lt_succ h, hget⟩

theorem mem_zipWith_imp {α β γ : Type} {f : α → β → γ} {P : γ → Prop}
    (hf : ∀ x y, P (f x y)) :
    ∀ (a : List α) (b : List β), ∀ x ∈ List.zipWith f a b, P x := by
  intro a
  induction a with
  | nil => simp
  | cons u us ih =>
    intro b x hx
    cases b with
    | nil => simp at hx
    | cons v vs =>
      simp only [List.zipWith_cons_cons, List.mem_cons] at hx
      rcases hx with rfl | h
      · exact hf u v
      · exact ih vs x h

theorem norm_diff_bounds (a b : ℚ) (ha : 0 ≤ a) (hb : 0 ≤ b) (hne : a + b ≠ 0) :
    -1 ≤ norm_diff a b ∧ norm_diff a b ≤ 1 := by
  have hpos : 0 < a + b := lt_of_le_of_ne (add_nonneg ha hb) (Ne.symm hne)
  constructor
  · rw [norm_diff, le_div_iff₀ hpos]; linarith
  · rw [norm_diff, div_le_one hpos]; linarith

/-- Claim C2: for every pair of band arrays that are nonnegative at every pixel,
at every pixel where the sum of the two bands is nonzero the normalized
difference `(band_1 - band_2) / (band_1 + band_2)` lies in `[-1, 1]`. -/
theorem norm_diff_in_unit_interval (A B : List ℚ)
    (hA : ∀ x ∈ A, 0 ≤ x) (hB : ∀ x ∈ B, 0 ≤ x)
    (i : ℕ) (hiA : i < A.length) (hiB : i < B.length)
    (hne : A.get ⟨i, hiA⟩ + B.get ⟨i, hiB⟩ ≠ 0) :
    ∃ h : i < (norm_diff_arr A B).length,
      -1 ≤ (norm_diff_arr A B).get ⟨i, h⟩ ∧ (norm_diff_arr A B).get ⟨i, h⟩ ≤ 1 := by
  obtain ⟨h, hget⟩ := zipWith_get norm_diff A B i hiA hiB
  refine ⟨h, ?_⟩
  show -1 ≤ (List.zipWith norm_diff A B).get ⟨i, h⟩ ∧
      (List.zipWith norm_diff A B).get ⟨i, h⟩ ≤ 1
  rw [hget]
  exact norm_diff_bounds _ _ (hA _ (A.get_mem i hiA)) (hB _ (B.get_mem i hiB)) hne

/-- Witness for C2 at concrete nonnegative bands NIR = [3, 2], RED = [1, 4],
pixel 0. -/
theorem norm_diff_in_unit_interval_witness :
    (∀ x ∈ [(3 : ℚ), 2], 0 ≤ x) ∧ (∀ x ∈ [(1 : ℚ), 4], 0 ≤ x) ∧
    ([(3 : ℚ), 2].get ⟨0, by decide⟩ + [(1 : ℚ), 4].get ⟨0, by decide⟩ ≠ 0) ∧
    (∃ h : 0 < (norm_diff_arr [(3 : ℚ), 2] [(1 : ℚ), 4]).length,
      -1 ≤ (norm_diff_arr [(3 : ℚ), 2] [(1 : ℚ), 4]).get ⟨0, h⟩ ∧
        (norm_diff_arr [(3 : ℚ), 2] [(1 : ℚ), 4]).get ⟨0, h⟩ ≤ 1) :=
  ⟨by intro x hx; fin_cases hx <;> norm_num,
    by intro x hx; fin_cases hx <;> norm_num,
    by show (3 : ℚ) + 1 ≠ 0; norm_num,
    norm_diff_in_unit_interval [(3 : ℚ), 2] [(1 : ℚ), 4]
      (by intro x hx; fin_cases hx <;> norm_num)
      (by intro x hx; fin_cases hx <;> norm_num) 0 (by decide) (by decide)
      (by show (3 : ℚ) + 1 ≠ 0; norm_num)⟩

theorem si_term_nonneg (perc v : ℚ) : 0 ≤ si_term perc v := by
  rw [si_term]; split <;> [rfl; linarith [not_lt.mp (by assumption)]]

/-- Claim C10: the Shadow Index clamps both percentile-deficit terms at zero
before multiplying, so the argument of the square root is nonnegative at every
pixel, and the SI output (its square root) is nonnegative as well. -/
theorem SI_radicand_nonneg (percentile : List ℚ → ℚ) (green red : List ℚ)
    (x : ℚ) (hx : x ∈ SI_radicand_arr percentile green red) :
    0 ≤ x ∧ 0 ≤ Real.sqrt (x : ℝ) := by
  refine ⟨?_, Real.sqrt_nonneg _⟩
  have hforall := mem_zipWith_imp
    (f := SI_radicand (percentile green) (percentile red))
    (P := fun x => 0 ≤ x)
    (fun g r => mul_nonneg (si_term_nonneg _ _) (si_term_nonneg _ _)) green red
  exact hforall x hx

/-- Witness for C10 at a concrete pixel (the 99th-percentile statistic replaced
by a concrete head-of-list functional, which values both percentiles at 3). -/
theorem SI_radicand_nonneg_witness :
    ((4 : ℚ) ∈ SI_radicand_arr (fun l => l.headI + 2) [1, 5] [2, 4]) ∧
    (0 ≤ (4 : ℚ) ∧ 0 ≤ Real.sqrt ((4 : ℚ) : ℝ)) :=
  ⟨by norm_num [SI_radicand_arr, SI_radicand, si_term, List.zipWith],
    SI_radicand_nonneg (fun l => l.headI + 2) [1, 5] [2, 4] 4
      (by norm_num [SI_radicand_arr, SI_radicand, si_term, List.zipWith])⟩

/-- Claim C1 counterexample: NDVI and BAI have the same declared required band
set, yet the required-bands query returns different results on them, because it
scans the textual sources of the formulas: NDVI yields [NIR, RED] while BAI
yields [RED, NIR].  The query's result therefore depends on the textual source
of the formula and is not a function of the declared band set alone. -/
theorem needed_bands_depend_on_source_text :
    NDVI_def.declared = BAI_def.declared ∧
    get_needed_bands NDVI_def.source = some [Band.NIR, Band.RED] ∧
    get_needed_bands BAI_def.source = some [Band.RED, Band.NIR] ∧
    get_needed_bands NDVI_def.source ≠ get_needed_bands BAI_def.source := by
  refine ⟨rfl, by decide, by decide, by decide⟩

/-- Claim C1 (amended): the required-bands query derives its result by scanning
the textual source of the index formula for obn.<name> references; for every
registered index the set of bands found this way equals the index's required
canonical band set, but the returned list itself follows the text (its order
and multiplicity are those of the textual references). -/
theorem get_needed_bands_set_matches_declared (d : IndexDef)
    (hd : d ∈ index_registry) :
    (get_needed_bands d.source).map List.toFinset = some d.declared.toFinset := by
  fin_cases hd <;> try decide
  · rw [show get_needed_bands BAI_def.source = some [Band.RED, Band.NIR] from by decide]
    simp only [Option.map_some']
    congr 1
    simp [BAI_def, List.toFinset_cons, List.toFinset_nil, Finset.pair_comm]
  · rw [show get_needed_bands BAIS2_def.source = some [Band.VRE_2, Band.VRE_3,
      Band.NARROW_NIR, Band.RED, Band.SWIR_2, Band.NARROW_NIR, Band.SWIR_2,
      Band.NARROW_NIR] from by decide]
    simp only [Option.map_some']
    congr 1
    ext x
    simp only [BAIS2_def, List.mem_toFinset, List.mem_cons, List.not_mem_nil, or_false]
    tauto

/-- Witness for the amended C1 on the registered NDVI entry. -/
theorem get_needed_bands_set_matches_declared_witness :
    NDVI_def ∈ index_registry ∧
    (get_needed_bands NDVI_def.source).map List.toFinset =
      some NDVI_def.declared.toFinset :=
  ⟨by decide, get_needed_bands_set_matches_declared NDVI_def (by decide)⟩

/-- Claim C3: the radiance-to-reflectance conversion multiplies each radiance
pixel by π / (solar_flux · cos(solar_zenith)); the solar flux is the mean of
the defined cells of the per-band solar-irradiance raster, and when that
raster is entirely undefined (all-NaN) it is the fixed per-band default
constant instead. -/
theorem rad_2_refl_spec (band_arr : List ℝ) (sza : List ℝ)
    (raster : List (Option ℚ)) (band : Band) (e0 : ℚ)
    (he0 : compute_e0 raster band = some e0) :
    rad_2_refl band_arr (e0 : ℝ) sza =
      List.zipWith (fun r z => r * (Real.pi / ((e0 : ℝ) * Real.cos z))) band_arr sza ∧
    (raster.filterMap id = [] → some e0 = SLSTR_SOLAR_FLUXES_DEFAULT band) ∧
    (raster.filterMap id ≠ [] →
      e0 = (raster.filterMap id).sum / ((raster.filterMap id).length : ℚ)) := by
  refine ⟨by simp only [rad_2_refl, div_div], ?_, ?_⟩
  · intro h
    rw [compute_e0, nanmean] at he0
    simp only [h, List.length_nil, if_pos rfl] at he0
    exact he0.symm
  · intro h
    have hlen : (raster.filterMap id).length ≠ 0 := by
      simpa [List.length_eq_zero] using h
    rw [compute_e0, nanmean] at he0
    simp only [if_neg hlen] at he0
    exact (Option.some_injective ℚ he0).symm

/-- Witness for C3: a raster with a single defined cell of value 3 yields a
solar flux of 3. -/
theorem rad_2_refl_spec_witness :
    compute_e0 [some 3] Band.GREEN = some 3 ∧
    (rad_2_refl [2] ((3 : ℚ) : ℝ) [0] =
      List.zipWith (fun r z => r * (Real.pi / (((3 : ℚ) : ℝ) * Real.cos z))) [2] [0] ∧
    (([some (3 : ℚ)].filterMap id = []) → some 3 = SLSTR_SOLAR_FLUXES_DEFAULT Band.GREEN) ∧
    (([some (3 : ℚ)].filterMap id ≠ []) →
      (3 : ℚ) = ([some (3 : ℚ)].filterMap id).sum / (([some (3 : ℚ)].filterMap id).length : ℚ))) := by
  have h1 : nanmean [some (3 : ℚ)] = some 3 := by
    rw [nanmean]; norm_num [List.filterMap_cons, List.filterMap_nil]
  have h2 : compute_e0 [some 3] Band.GREEN = some 3 := by rw [compute_e0, h1]
  exact ⟨h2, rad_2_refl_spec [2] [0] [some 3] Band.GREEN 3 h2⟩

/-- Claim C4: calling geocode twice with the same grid suffix and the same
inputs on a fresh cache runs the expensive control-point construction exactly
once — the second call reuses the cached control points (the cache state does
not change at all) — and both calls return identical outputs. -/
theorem geocode_cache_correct {β γ δ : Type} (build : String → List γ)
    (reproject : β → List γ → δ) (st0 : GcpState γ) (band_arr : β) (suffix : String)
    (hfresh : gcps_lookup st0.gcps suffix = none) :
    (geocode build reproject st0 band_arr suffix).2.create_count = st0.create_count + 1 ∧
    (geocode build reproject (geocode build reproject st0 band_arr suffix).2
        band_arr suffix).2 = (geocode build reproject st0 band_arr suffix).2 ∧
    (geocode build reproject (geocode build reproject st0 band_arr suffix).2
        band_arr suffix).1 = (geocode build reproject st0 band_arr suffix).1 := by
  have hhit : gcps_lookup ((suffix, build suffix) :: st0.gcps) suffix =
      some (build suffix) := by
    simp [gcps_lookup, List.find?]
  refine ⟨?_, ?_, ?_⟩ <;> simp [geocode, create_gcps, hfresh, hhit]

/-- Witness for C4 on a fresh cache, suffix "an", a concrete builder and a
concrete reprojector. -/
theorem geocode_cache_correct_witness :
    gcps_lookup (GcpState.mk ([] : List (String × List ℚ)) 0).gcps "an" = none ∧
    ((geocode (fun _ => [(1 : ℚ), 2]) (fun (b : ℚ) g => (b, g))
        ⟨[], 0⟩ 7 "an").2.create_count = 0 + 1 ∧
      (geocode (fun _ => [(1 : ℚ), 2]) (fun (b : ℚ) g => (b, g))
          (geocode (fun _ => [(1 : ℚ), 2]) (fun (b : ℚ) g => (b, g)) ⟨[], 0⟩ 7 "an").2
          7 "an").2 =
        (geocode (fun _ => [(1 : ℚ), 2]) (fun (b : ℚ) g => (b, g)) ⟨[], 0⟩ 7 "an").2 ∧
      (geocode (fun _ => [(1 : ℚ), 2]) (fun (b : ℚ) g => (b, g))
          (geocode (fun _ => [(1 : ℚ), 2]) (fun (b : ℚ) g => (b, g)) ⟨[], 0⟩ 7 "an").2
          7 "an").1 =
        (geocode (fun _ => [(1 : ℚ), 2]) (fun (b : ℚ) g => (b, g)) ⟨[], 0⟩ 7 "an").1) :=
  ⟨rfl, geocode_cache_correct (fun _ => [(1 : ℚ), 2]) (fun (b : ℚ) g => (b, g))
    ⟨[], 0⟩ 7 "an" rfl⟩

theorem lor_one_left (x y : ℕ) (hx : x ≤ 1) (hy : y ≤ 1) : 1 ||| x ||| y = 1 := by
  interval_cases x <;> interval_cases y <;> decide

theorem read_bit_le_one (qual bit_id : ℕ) : read_bit qual bit_id ≤ 1 := by
  rw [read_bit]; split <;> decide

theorem olci_mask_superset_pixel (snap_no_data : ℚ) (sat_id : ℕ) (v : ℚ) (qual : ℕ)
    (h : olci_no_data snap_no_data v = 1) :
    olci_invalid_mask snap_no_data sat_id v qual = 1 := by
  rw [olci_invalid_mask, h]
  exact lor_one_left _ _ (read_bit_le_one _ _) (read_bit_le_one _ _)

theorem slstr_mask_superset_pixel (v : Option ℚ) (qual : ℤ)
    (h : slstr_no_data v = 1) : slstr_invalid_mask v qual = 1 := by
  rw [slstr_invalid_mask, h, slstr_exception]
  split <;> decide

/-- Claim C5: for every band array and flag raster the combined invalid-pixel
mask is a pointwise superset of the plain no-data mask — stated for both the
OLCI mask (no_data | invalid | sat) and the SLSTR mask (no_data | exception):
at every pixel where the no-data condition holds, the combined mask is 1. -/
theorem invalid_mask_superset_of_no_data (snap_no_data : ℚ) (sat_id : ℕ)
    (A : List ℚ) (Q : List ℕ) (i : ℕ) (hA : i < A.length) (hQ : i < Q.length)
    (S : List (Option ℚ)) (R : List ℤ) (j : ℕ) (hS : j < S.length) (hR : j < R.length) :
    (olci_no_data snap_no_data (A.get ⟨i, hA⟩) = 1 →
      ∃ h : i < (olci_mask_arr snap_no_data sat_id A Q).length,
        (olci_mask_arr snap_no_data sat_id A Q).get ⟨i, h⟩ = 1) ∧
    (slstr_no_data (S.get ⟨j, hS⟩) = 1 →
      ∃ h : j < (slstr_mask_arr S R).length,
        (slstr_mask_arr S R).get ⟨j, h⟩ = 1) := by
  constructor
  · intro hnd
    obtain ⟨h, hget⟩ := zipWith_get (olci_invalid_mask snap_no_data sat_id) A Q i hA hQ
    exact ⟨h, by
      show (List.zipWith (olci_invalid_mask snap_no_data sat_id) A Q).get ⟨i, h⟩ = 1
      rw [hget]; exact olci_mask_superset_pixel _ _ _ _ hnd⟩
  · intro hnd
    obtain ⟨h, hget⟩ := zipWith_get slstr_invalid_mask S R j hS hR
    exact ⟨h, by
      show (List.zipWith slstr_invalid_mask S R).get ⟨j, h⟩ = 1
      rw [hget]; exact slstr_mask_superset_pixel _ _ hnd⟩

/-- Witness for C5: OLCI band pixel equal to the SNAP no-data value -1 with a
clean flag word, and an SLSTR NaN pixel with a clean flag word. -/
theorem invalid_mask_superset_of_no_data_witness :
    (olci_no_data (-1) ([(-1 : ℚ)].get ⟨0, by decide⟩) = 1 →
      ∃ h : 0 < (olci_mask_arr (-1) 4 [(-1 : ℚ)] [0]).length,
        (olci_mask_arr (-1) 4 [(-1 : ℚ)] [0]).get ⟨0, h⟩ = 1) ∧
    (olci_no_data (-1) ([(-1 : ℚ)].get ⟨0, by decide⟩) = 1) ∧
    (slstr_no_data (([none] : List (Option ℚ)).get ⟨0, by decide⟩) = 1 →
      ∃ h : 0 < (slstr_mask_arr [none] [0]).length,
        (slstr_mask_arr [none] [0]).get ⟨0, h⟩ = 1) ∧
    (slstr_no_data (([none] : List (Option ℚ)).get ⟨0, by decide⟩) = 1) :=
  ⟨(invalid_mask_superset_of_no_data (-1) 4 [(-1 : ℚ)] [0] 0 (by decide) (by decide)
      [none] [0] 0 (by decide) (by decide)).1,
    by decide,
    (invalid_mask_superset_of_no_data (-1) 4 [(-1 : ℚ)] [0] 0 (by decide) (by decide)
      [none] [0] 0 (by decide) (by decide)).2,
    by decide⟩

/-- Claim C6 counterexample: take a tie-point source with no filled/no-data
cell at all (a genuine all-zero field) and a spline evaluation reproducing it
exactly; the resampler still remaps the legitimate zero to NaN instead of
returning it as computed — the remap keys on the value alone, not on having
been derived from a filled source. -/
theorem tie_to_img_clobbers_true_zero :
    (∀ c ∈ [some (0 : ℚ)], c ≠ none) ∧
    tie_to_img (fun l => l) [some 0] = [none] ∧
    tie_to_img (fun l => l) [some 0] ≠
      ((fun (l : List ℚ) => l) ([some 0].map nan_to_num)).map some := by
  refine ⟨by decide, by decide, by decide⟩

/-- Claim C6 (amended): in the tie-point resampler every interpolated value
that lands exactly on zero is remapped to NaN — whether or not it derives from
a filled/no-data source — and every interpolated value that is not exactly
zero is returned as computed. -/
theorem tie_to_img_zero_remap (spline_ev : List ℚ → List ℚ)
    (tie_arr : List (Option ℚ)) (i : ℕ)
    (h : i < (spline_ev (tie_arr.map nan_to_num)).length) :
    ∃ hh : i < (tie_to_img spline_ev tie_arr).length,
      ((tie_to_img spline_ev tie_arr).get ⟨i, hh⟩ = none ↔
        (spline_ev (tie_arr.map nan_to_num)).get ⟨i, h⟩ = 0) ∧
      ((spline_ev (tie_arr.map nan_to_num)).get ⟨i, h⟩ ≠ 0 →
        (tie_to_img spline_ev tie_arr).get ⟨i, hh⟩ =
          some ((spline_ev (tie_arr.map nan_to_num)).get ⟨i, h⟩)) := by
  have hh : i < (tie_to_img spline_ev tie_arr).length := by
    simpa [tie_to_img] using h
  refine ⟨hh, ?_⟩
  have hget : (tie_to_img spline_ev tie_arr).get ⟨i, hh⟩ =
      zero_to_nan ((spline_ev (tie_arr.map nan_to_num)).get ⟨i, h⟩) := by
    simp [tie_to_img, List.get_map]
  rw [hget, zero_to_nan]
  constructor
  · split
    · simp_all
    · simp_all
  · intro hne
    rw [if_neg hne]

/-- Witness for the amended C6: identity spline evaluation of the defined
one-cell tie array [1]; the nonzero value 1 survives untouched. -/
theorem tie_to_img_zero_remap_witness :
    (0 < ((fun (l : List ℚ) => l) ([some 1].map nan_to_num)).length) ∧
    (∃ hh : 0 < (tie_to_img (fun (l : List ℚ) => l) [some 1]).length,
      ((tie_to_img (fun (l : List ℚ) => l) [some 1]).get ⟨0, hh⟩ = none ↔
        ((fun (l : List ℚ) => l) ([some 1].map nan_to_num)).get ⟨0, by decide⟩ = 0) ∧
      (((fun (l : List ℚ) => l) ([some 1].map nan_to_num)).get ⟨0, by decide⟩ ≠ 0 →
        (tie_to_img (fun (l : List ℚ) => l) [some 1]).get ⟨0, hh⟩ =
          some (((fun (l : List ℚ) => l) ([some 1].map nan_to_num)).get ⟨0, by decide⟩))) :=
  ⟨by decide, tie_to_img_zero_remap (fun l => l) [some 1] 0 (by decide)⟩

/-- Claim C7: radiometric adjustment multiplies the raw array elementwise by
the coefficient looked up for (raw channel, view suffix) in the selected
profile: under the default profile (whose S5_n is 1.11) a raw value 10.0 on
channel S5, nadir view, becomes 11.1; a channel with no listed coefficient,
e.g. the brightness-temperature channel S9 carried by TIR_2 (unmapped for
SLSTR), is returned unchanged — its coefficient defaults to 1.0. -/
theorem radiance_adjustment_spec (arr : List ℚ) (band : Band)
    (adj : SlstrRadAdjustTuple) :
    radiance_adjustment slstr_band_names "an" S3_PN_SLSTR_L1_08 [10] Band.SWIR_1 =
      some [(111 : ℚ) / 10] ∧
    radiance_adjustment slstr_band_names "an" adj arr Band.TIR_2 = some arr ∧
    (∀ band_name, slstr_band_names band = some band_name →
      band_name ∈ SLSTR_RAD_BANDS →
      radiance_adjustment slstr_band_names "an" adj arr band =
        (adj.coeff (band_name ++ "_n")).map
          (fun rad_coeff => arr.map (fun x => x * rad_coeff))) := by
  refine ⟨?_, ?_, ?_⟩
  · show some ([(10 : ℚ)].map (fun x => x * S3_PN_SLSTR_L1_08.S5_n)) = some [(111 : ℚ) / 10]
    norm_num [S3_PN_SLSTR_L1_08]
  · rfl
  · intro band_name hbn hmem
    rw [radiance_adjustment, hbn]
    simp only [if_pos hmem]
    have hback : String.mk [String.back "an"] = "n" := rfl
    rw [hback, String.append_assoc]
    rfl

/-- Witness for C7 on SWIR_2 (channel S6): the general lookup-and-multiply
shape instantiated, together with the two concrete scenarios. -/
theorem radiance_adjustment_spec_witness :
    (slstr_band_names Band.SWIR_2 = some "S6") ∧
    ("S6" ∈ SLSTR_RAD_BANDS) ∧
    radiance_adjustment slstr_band_names "an" S3_PN_SLSTR_L1_08 [10] Band.SWIR_1 =
      some [(111 : ℚ) / 10] ∧
    radiance_adjustment slstr_band_names "an" S3_PN_SLSTR_L1_08 [5] Band.TIR_2 =
      some [5] ∧
    radiance_adjustment slstr_band_names "an" S3_PN_SLSTR_L1_08 [5] Band.SWIR_2 =
      (S3_PN_SLSTR_L1_08.coeff ("S6" ++ "_n")).map
        (fun rad_coeff => [(5 : ℚ)].map (fun x => x * rad_coeff)) :=
  ⟨rfl, by decide,
    (radiance_adjustment_spec [5] Band.SWIR_2 S3_PN_SLSTR_L1_08).1,
    (radiance_adjustment_spec [5] Band.SWIR_2 S3_PN_SLSTR_L1_08).2.1,
    (radiance_adjustment_spec [5] Band.SWIR_2 S3_PN_SLSTR_L1_08).2.2 "S6" rfl (by decide)⟩

/-- Claim C8: a canonical band absent from the active product mapping makes
both band-name resolvers fail with an error carrying the missing band's name
and the product data-type name; no raw channel is substituted and the request
is never silently satisfied. -/
theorem missing_band_raises (data_type : S3DataTypes)
    (band_names : Band → Option String) (band : Band)
    (hmissing : band_names band = none) :
    get_snap_band_name data_type band_names band = .error (.invalidProduct
      ("Non existing band (" ++ band.name ++ ") for S3-" ++ data_type.name ++
        " products")) ∧
    get_slstr_quality_flags_name data_type band_names band = .error (.invalidProduct
      ("Non existing band (" ++ band.name ++ ") for S3-" ++ data_type.name ++
        " products")) := by
  constructor
  · rw [get_snap_band_name, hmissing]
  · rw [get_slstr_quality_flags_name, hmissing]

/-- Witness for C8: the spec's concrete scenario — SWIR_1 on the OLCI mapping,
which has no SWIR_1 entry; both resolvers report the band and the data type. -/
theorem missing_band_raises_witness :
    olci_band_names Band.SWIR_1 = none ∧
    get_snap_band_name S3DataTypes.EFR olci_band_names Band.SWIR_1 =
      .error (.invalidProduct "Non existing band (SWIR_1) for S3-EFR products") ∧
    get_slstr_quality_flags_name S3DataTypes.EFR olci_band_names Band.SWIR_1 =
      .error (.invalidProduct "Non existing band (SWIR_1) for S3-EFR products") :=
  ⟨rfl,
    (missing_band_raises S3DataTypes.EFR olci_band_names Band.SWIR_1 rfl).1,
    (missing_band_raises S3DataTypes.EFR olci_band_names Band.SWIR_1 rfl).2⟩

/-- Claim C9: within one band's pipeline the stage order is fixed in every
invocation (cached or not, with or without reflectance conversion): radiance
adjustment precedes the reflectance conversion, both precede geocoding — so
they always act on the un-geocoded pixel-grid array — geocoding precedes the
output write, and the invalid-pixel masking comes after every other stage. -/
theorem preprocess_stage_order (cached cached_qual to_reflectance : Bool) :
    StageBefore (preprocess_trace cached to_reflectance) .adjust .rad2refl ∧
    StageBefore (preprocess_trace cached to_reflectance) .adjust .geocodeStage ∧
    StageBefore (preprocess_trace cached to_reflectance) .rad2refl .geocodeStage ∧
    StageBefore (preprocess_trace cached to_reflectance) .geocodeStage .writeDisk ∧
    (∀ s : Stage, s ≠ .maskStage →
      StageBefore (load_clean_trace cached cached_qual to_reflectance) s .maskStage) := by
  cases cached <;> cases cached_qual <;> cases to_reflectance <;> decide

/-- Witness for C9 on the fully-executing invocation (nothing cached,
reflectance conversion on). -/
theorem preprocess_stage_order_witness :
    StageBefore (preprocess_trace false true) .adjust .rad2refl ∧
    StageBefore (preprocess_trace false true) .adjust .geocodeStage ∧
    StageBefore (preprocess_trace false true) .rad2refl .geocodeStage ∧
    StageBefore (preprocess_trace false true) .geocodeStage .writeDisk ∧
    (∀ s : Stage, s ≠ .maskStage →
      StageBefore (load_clean_trace false false true) s .maskStage) :=
  preprocess_stage_order false false true

end EOReader
